import Mathlib

/-!
Verification development for the freeman directory-navigation engine.

The definitions below are a shallow embedding of the TypeScript sources:
the Navigator (objects/Navigator.ts), the DirectoryManager
(managers/DirectoryManager.ts) and the DirectoryList component
(components/panels/DirectoryList.tsx).  Asynchronous work is modelled as
completing deterministically in program order; every Directory Store
interaction an operation performs is recorded in an explicit call log so
that claims about issued (or not issued) I/O can be stated and proved.
-/

namespace Freeman

/-- A directory item as produced by DirectoryManager.listDirectory
(IDirectoryItem: name, path, isDirectory, isHidden). -/
structure DirectoryItem where
  name : String
  path : String
  isDirectory : Bool
  isHidden : Bool
deriving DecidableEq, Repr

/-- An INavigatorDirectoryItem: a directory item together with the optional
lazily resolving childItems handle.  The handle, when present, carries the
item list the promise yields when awaited; an absent handle models an
undefined childItems field. -/
inductive NavItem where
  | mk (item : DirectoryItem) (childItems : Option (List NavItem))

/-- The plain directory-item data of a navigator item. -/
def NavItem.item : NavItem → DirectoryItem
  | .mk d _ => d

/-- The childItems handle of a navigator item. -/
def NavItem.childItems : NavItem → Option (List NavItem)
  | .mk _ c => c

/-- The path of a navigator item. -/
def NavItem.path (n : NavItem) : String := n.item.path

/-- Whether a navigator item is a directory. -/
def NavItem.isDirectory (n : NavItem) : Bool := n.item.isDirectory

@[simp] theorem NavItem.item_mk (d : DirectoryItem) (c : Option (List NavItem)) :
    (NavItem.mk d c).item = d := rfl

@[simp] theorem NavItem.childItems_mk (d : DirectoryItem) (c : Option (List NavItem)) :
    (NavItem.mk d c).childItems = c := rfl

@[simp] theorem NavItem.path_mk (d : DirectoryItem) (c : Option (List NavItem)) :
    (NavItem.mk d c).path = d.path := rfl

@[simp] theorem NavItem.isDirectory_mk (d : DirectoryItem) (c : Option (List NavItem)) :
    (NavItem.mk d c).isDirectory = d.isDirectory := rfl

/-- A freshly listed IDirectoryItem used as an INavigatorDirectoryItem:
its childItems field is undefined. -/
def toNav (d : DirectoryItem) : NavItem := NavItem.mk d none

@[simp] theorem toNav_item (d : DirectoryItem) : (toNav d).item = d := rfl

/-- The Directory Store capability the Navigator consumes: listDirectory
(none models a rejected listing) and the existence check used by
retrieveParentDirectoryPath. -/
structure DirectoryStore where
  listDirectory : String → Option (List DirectoryItem)
  existsPath : String → Bool

/-- One Directory Store interaction, as recorded in an operation's call log. -/
inductive StoreCall where
  | listCall (p : String)
  | existsCall (p : String)
  | deleteCall (p : String)
  | copyCall (src dest : String)
deriving DecidableEq, Repr

/-- Node path.posix.dirname restricted to the character-list model of
strings: scan from the right for the last slash separating a non-empty
final component; a rootless path yields a dot and the filesystem root is
its own dirname. -/
def dirnameEnd : List (Nat × Char) → Bool → Option Nat
  | [], _ => none
  | (i, c) :: rest, matchedSlash =>
    if i = 0 then none
    else if c = '/' then
      if matchedSlash then dirnameEnd rest matchedSlash else some i
    else dirnameEnd rest false

/-- Node path.posix.dirname, modelling the path.dirname call in
Navigator.retrieveParentDirectoryPath. -/
def posixDirname (p : String) : String :=
  match p.data with
  | [] => "."
  | c0 :: _ =>
    let hasRoot := c0 = '/'
    match dirnameEnd p.data.enum.reverse true with
    | none => if hasRoot then "/" else "."
    | some e => if hasRoot ∧ e = 1 then "//" else String.mk (p.data.take e)

/-- Splits a character list on slashes (helper for basename). -/
def splitSlash : List Char → List (List Char)
  | [] => [[]]
  | c :: rest =>
    let r := splitSlash rest
    if c = '/' then [] :: r
    else
      match r with
      | [] => [[c]]
      | h :: t => (c :: h) :: t

/-- Node path.posix.basename for normalized inputs without trailing
slashes, as used by DirectoryManager.copyItem. -/
def posixBasename (p : String) : String :=
  String.mk ((splitSlash p.data).getLastD [])

/-- Node path.posix.join for a normalized directory and a plain name, as
used by DirectoryManager to build destination paths. -/
def pathJoin (dir name : String) : String := dir ++ "/" ++ name

/-- Navigator.retrieveGrandChildren: for every directory item the
directory manager lists its children; a successful listing replaces the
item's childItems handle with the resolved list (fresh items carry no
handles of their own), and a failed listing is logged and leaves the item
unchanged.  Every attempted listing is recorded in the call log. -/
def retrieveGrandChildren (store : DirectoryStore) : List NavItem → List NavItem × List StoreCall
  | [] => ([], [])
  | it :: rest =>
    let r := retrieveGrandChildren store rest
    if it.isDirectory then
      match store.listDirectory it.path with
      | some gc =>
        (NavItem.mk it.item (some (gc.map toNav)) :: r.1, StoreCall.listCall it.path :: r.2)
      | none => (it :: r.1, StoreCall.listCall it.path :: r.2)
    else (it :: r.1, r.2)

/-- The Navigator's mutable fields: currentPath, the optionally loaded
currentDirectoryItems, the resolved parentDirectoryPath (none models a
null parent) and the optionally resolved parentDirectoryItems. -/
structure NavState where
  currentPath : String
  currentDirectoryItems : Option (List NavItem)
  parentDirectoryPath : Option String
  parentDirectoryItems : Option (List NavItem)

/-- The ways a navigation operation can reject. -/
inductive NavErr where
  | noParent
  | typeErr
  | notRetrieved
  | listFailed
deriving DecidableEq, Repr

/-- The outcome of a navigation operation: the resulting navigator state
(mutations performed before a rejection are kept, as on the TypeScript
object), the rejection if any, and the Directory Store call log. -/
structure NavResult where
  state : NavState
  err : Option NavErr
  calls : List StoreCall

/-- The tail shared by the Navigator constructor, toParent and toDirectory:
retrieveParentDirectoryPath resolves the dirname of the current path via
the existence check, parentDirectoryPath is set to it (or null), and when
non-null the parent is listed; a successful listing is stored in
parentDirectoryItems and re-primed for grandchildren, while a failed
listing is an unhandled background rejection that leaves
parentDirectoryItems untouched. -/
def resolveParentTail (store : DirectoryStore) (s : NavState) : NavState × List StoreCall :=
  let pp := posixDirname s.currentPath
  if store.existsPath pp then
    match store.listDirectory pp with
    | some l =>
      let r := retrieveGrandChildren store (l.map toNav)
      ({ s with parentDirectoryPath := some pp, parentDirectoryItems := some r.1 },
        StoreCall.existsCall pp :: StoreCall.listCall pp :: r.2)
    | none =>
      ({ s with parentDirectoryPath := some pp },
        [StoreCall.existsCall pp, StoreCall.listCall pp])
  else
    ({ s with parentDirectoryPath := none }, [StoreCall.existsCall pp])

/-- Navigator.toParent: rejects with a LoggedError when the resolved
parentDirectoryPath is null; when the parent path is set but
parentDirectoryItems never resolved, the promotion assigns undefined and
the subsequent retrieveGrandChildren call raises a TypeError after
currentPath has already been reassigned; otherwise the tracked parent
entries are promoted to currentDirectoryItems (re-primed for
grandchildren) and the new parent is resolved in the background. -/
def toParent (store : DirectoryStore) (s : NavState) : NavResult :=
  match s.parentDirectoryPath with
  | none => { state := s, err := some NavErr.noParent, calls := [] }
  | some p =>
    match s.parentDirectoryItems with
    | none =>
      { state := { s with currentPath := p, currentDirectoryItems := none },
        err := some NavErr.typeErr, calls := [] }
    | some its =>
      let r := retrieveGrandChildren store its
      let s1 : NavState :=
        { currentPath := p, currentDirectoryItems := some r.1,
          parentDirectoryPath := some p, parentDirectoryItems := some r.1 }
      let t := resolveParentTail store s1
      { state := t.1, err := none, calls := r.2 ++ t.2 }

/-- Navigator.toChild: a no-op when currentDirectoryItems is undefined;
raises a TypeError when no current entry carries the requested path;
rejects with a LoggedError when the entry's childItems handle has not
begun retrieval; otherwise the handle's list is promoted to
currentDirectoryItems (re-primed for grandchildren) and the previous
current path and entries become the tracked parent. -/
def toChild (store : DirectoryStore) (s : NavState) (folderPath : String) : NavResult :=
  match s.currentDirectoryItems with
  | none => { state := s, err := none, calls := [] }
  | some items =>
    match items.find? (fun it => it.path == folderPath) with
    | none => { state := s, err := some NavErr.typeErr, calls := [] }
    | some childItem =>
      match childItem.childItems with
      | none => { state := s, err := some NavErr.notRetrieved, calls := [] }
      | some grandChildren =>
        let r := retrieveGrandChildren store grandChildren
        { state :=
            { currentPath := childItem.path,
              currentDirectoryItems := some r.1,
              parentDirectoryPath := some s.currentPath,
              parentDirectoryItems := some items },
          err := none, calls := r.2 }

/-- Navigator.toDirectory: dispatches to toParent when the argument equals
the resolved parent path, to toChild when a current entry carries the
path, and otherwise re-lists the argument from scratch (currentPath is
reassigned before the listing, so a failed listing leaves the path
changed), re-primes grandchildren and resolves the new parent. -/
def toDirectory (store : DirectoryStore) (s : NavState) (folderPath : String) : NavResult :=
  if s.parentDirectoryPath = some folderPath then toParent store s
  else
    match Option.bind s.currentDirectoryItems (fun items => items.find? (fun it => it.path == folderPath)) with
    | some potentialChild => toChild store s potentialChild.path
    | none =>
      match store.listDirectory folderPath with
      | none =>
        { state := { s with currentPath := folderPath },
          err := some NavErr.listFailed,
          calls := [StoreCall.listCall folderPath] }
      | some l =>
        let r := retrieveGrandChildren store (l.map toNav)
        let s1 : NavState :=
          { s with currentPath := folderPath, currentDirectoryItems := some r.1 }
        let t := resolveParentTail store s1
        { state := t.1, err := none,
          calls := StoreCall.listCall folderPath :: (r.2 ++ t.2) }

/-- The type of a filesystem item as used by DirectoryManager. -/
inductive ItemType where
  | file
  | folder
deriving DecidableEq, Repr

/-- Modelled from the spec: Utils.parseItemType (repository code outside
src/) maps a directory item to its item type, folder for a directory and
file otherwise. -/
def parseItemType (i : DirectoryItem) : ItemType :=
  if i.isDirectory then ItemType.folder else ItemType.file

/-- A DirectoryError: a message together with the source path and, where
applicable, a destination path. -/
structure DirectoryError where
  message : String
  itemPath : String
  secondPath : Option String := none
deriving DecidableEq, Repr

/-- Promise.all over already started operations: every operation runs, and
the rejection reported to the caller is the first rejection among them
(successes are not rolled back). -/
def promiseAllErr : List (Option DirectoryError) → Option DirectoryError
  | [] => none
  | none :: rest => promiseAllErr rest
  | some e :: _ => some e

/-- DirectoryManager.deleteItem (static): one rmdir or unlink call on the
item path, rejecting with a DirectoryError naming that path when the
underlying operation fails; delOk gives the per-path outcome of the
underlying filesystem call. -/
def deleteItem (delOk : String → Bool) (itemPath : String) (itemType : ItemType) :
    List StoreCall × Option DirectoryError :=
  ([StoreCall.deleteCall itemPath],
    if delOk itemPath then none
    else some
      { message := if itemType = ItemType.folder then "Cannot remove folder" else "Cannot remove file",
        itemPath := itemPath })

/-- DirectoryManager.deleteItems: starts a deletion for every item and
awaits them with Promise.all. -/
def deleteItems (delOk : String → Bool) (items : List DirectoryItem) :
    List StoreCall × Option DirectoryError :=
  let results := items.map (fun i => deleteItem delOk i.path (parseItemType i))
  ((results.map Prod.fst).flatten, promiseAllErr (results.map Prod.snd))

/-- DirectoryManager.copyItem (static): one ncp call copying the item to
the destination directory under its basename; copyOk gives the outcome of
the underlying copy for a given source and destination file name. -/
def copyItem (copyOk : String → String → Bool) (itemPath destDir : String) :
    List StoreCall × Option DirectoryError :=
  let destinationFileName := pathJoin destDir (posixBasename itemPath)
  ([StoreCall.copyCall itemPath destinationFileName],
    if copyOk itemPath destinationFileName then none
    else some
      { message := "Failed to copy item", itemPath := itemPath,
        secondPath := some destinationFileName })

/-- DirectoryManager.moveItem (static): copies the item and then deletes
the source; the sequential awaits mean a failed copy prevents the
deletion, and any failure is rethrown as a DirectoryError naming the
source path and destination directory. -/
def moveItem (copyOk : String → String → Bool) (delOk : String → Bool)
    (itemPath destDir : String) (itemType : ItemType) :
    List StoreCall × Option DirectoryError :=
  let c := copyItem copyOk itemPath destDir
  match c.2 with
  | some _ =>
    (c.1, some { message := "Failed to copy item", itemPath := itemPath,
                 secondPath := some destDir })
  | none =>
    let d := deleteItem delOk itemPath itemType
    (c.1 ++ d.1,
      d.2.map (fun _ => { message := "Failed to copy item", itemPath := itemPath,
                          secondPath := some destDir }))

/-- DirectoryManager.copyItems: starts a copy for every item and awaits
them with Promise.all. -/
def copyItems (copyOk : String → String → Bool) (items : List DirectoryItem)
    (destDir : String) : List StoreCall × Option DirectoryError :=
  let results := items.map (fun i => copyItem copyOk i.path destDir)
  ((results.map Prod.fst).flatten, promiseAllErr (results.map Prod.snd))

/-- DirectoryManager.moveItems: starts a move for every item and awaits
them with Promise.all. -/
def moveItems (copyOk : String → String → Bool) (delOk : String → Bool)
    (items : List DirectoryItem) (destDir : String) :
    List StoreCall × Option DirectoryError :=
  let results := items.map (fun i => moveItem copyOk delOk i.path destDir (parseItemType i))
  ((results.map Prod.fst).flatten, promiseAllErr (results.map Prod.snd))

/-- The two clipboard actions of the DirectoryList clipboard. -/
inductive ClipboardAction where
  | copy
  | cut
deriving DecidableEq, Repr

/-- Modelled from the spec: DirectoryListModel (repository code outside
src/) stores the item clipboard; its clipboardAction and clipboardItems
accessors yield the recorded action and items, undefined when nothing has
been stored. -/
structure DirectoryListModel where
  clipboardAction : Option ClipboardAction
  clipboardItems : Option (List DirectoryItem)

/-- The ways DirectoryList.pasteFromClipboard can reject. -/
inductive PasteErr where
  | loggedUndefined
  | dirErr (e : DirectoryError)
  | listFailed
deriving DecidableEq, Repr

/-- DirectoryList.pasteFromClipboard: on a copy action the clipboard items
are copied to the current path and the directory is re-listed; on a cut
action they are moved and the directory is re-listed; a recorded action
with undefined items raises a LoggedError; with no recorded action the
function falls through both branches and returns without doing
anything. -/
def pasteFromClipboard (copyOk : String → String → Bool) (delOk : String → Bool)
    (store : DirectoryStore) (model : DirectoryListModel) (curPath : String) :
    List StoreCall × Option PasteErr :=
  match model.clipboardAction with
  | some ClipboardAction.copy =>
    match model.clipboardItems with
    | none => ([], some PasteErr.loggedUndefined)
    | some its =>
      let c := copyItems copyOk its curPath
      match c.2 with
      | some e => (c.1, some (PasteErr.dirErr e))
      | none =>
        match store.listDirectory curPath with
        | some _ => (c.1 ++ [StoreCall.listCall curPath], none)
        | none => (c.1 ++ [StoreCall.listCall curPath], some PasteErr.listFailed)
  | some ClipboardAction.cut =>
    match model.clipboardItems with
    | none => ([], some PasteErr.loggedUndefined)
    | some its =>
      let m := moveItems copyOk delOk its curPath
      match m.2 with
      | some e => (m.1, some (PasteErr.dirErr e))
      | none =>
        match store.listDirectory curPath with
        | some _ => (m.1 ++ [StoreCall.listCall curPath], none)
        | none => (m.1 ++ [StoreCall.listCall curPath], some PasteErr.listFailed)
  | none => ([], none)

/-- The watcher bookkeeping of a DirectoryManager: every fs.FSWatcher ever
created, as a pair of the watched path and whether the watch is still
open, together with the private watcher field (the index of the most
recently created watcher) and the number of close calls performed. -/
structure WatcherState where
  watchers : List (String × Bool)
  watcherIdx : Option Nat
  cancels : Nat

/-- A DirectoryManager before any watch has been started. -/
def emptyWatcherState : WatcherState :=
  { watchers := [], watcherIdx := none, cancels := 0 }

/-- DirectoryManager.startWatching: creates a new fs.watch on the path and
overwrites the private watcher field with it; the previously referenced
watcher is not closed and stays open. -/
def startWatching (p : String) (m : WatcherState) : WatcherState :=
  { watchers := m.watchers ++ [(p, true)],
    watcherIdx := some m.watchers.length,
    cancels := m.cancels }

/-- DirectoryManager.stopWatching: closes the watcher currently referenced
by the private field, if any; earlier overwritten watchers are
unreachable and cannot be closed. -/
def stopWatching (m : WatcherState) : WatcherState :=
  match m.watcherIdx with
  | none => m
  | some i =>
    { m with
      watchers := m.watchers.enum.map (fun pr => if pr.1 = i then (pr.2.1, false) else pr.2),
      cancels := m.cancels + 1 }

/-- The number of watches currently live (created and never closed). -/
def liveWatchCount (m : WatcherState) : Nat :=
  (m.watchers.filter (fun w => w.2)).length

/-- DirectoryList.componentDidUpdate watcher handling: when the path prop
changed, startWatching is called for the new path; stopWatching is never
called on a navigation. -/
def navigationRewatch (newPath : String) (m : WatcherState) : WatcherState :=
  startWatching newPath m

/-- Re-priming only replaces childItems handles: the underlying directory
items of a list are unchanged by retrieveGrandChildren. -/
theorem retrieveGrandChildren_items (store : DirectoryStore) (items : List NavItem) :
    ((retrieveGrandChildren store items).1).map NavItem.item = items.map NavItem.item := by
  induction items with
  | nil => simp [retrieveGrandChildren]
  | cons it rest ih =>
    cases hd : it.isDirectory with
    | false => simp [retrieveGrandChildren, hd, ih]
    | true =>
      cases hl : store.listDirectory it.path with
      | none => simp [retrieveGrandChildren, hd, hl, ih]
      | some gc => simp [retrieveGrandChildren, hd, hl, ih]

/-- The call log of retrieveGrandChildren is exactly one listing per
directory item, in order. -/
theorem retrieveGrandChildren_calls (store : DirectoryStore) (items : List NavItem) :
    (retrieveGrandChildren store items).2
      = (items.filter (fun it => it.isDirectory)).map (fun it => StoreCall.listCall it.path) := by
  induction items with
  | nil => simp [retrieveGrandChildren]
  | cons it rest ih =>
    cases hd : it.isDirectory with
    | false => simp [retrieveGrandChildren, hd, ih]
    | true =>
      cases hl : store.listDirectory it.path with
      | none => simp [retrieveGrandChildren, hd, hl, ih]
      | some gc => simp [retrieveGrandChildren, hd, hl, ih]

/-- A listing recorded by retrieveGrandChildren always targets the path of
one of the given items. -/
theorem listCall_mem_retrieveGrandChildren (store : DirectoryStore)
    (items : List NavItem) (q : String)
    (h : StoreCall.listCall q ∈ (retrieveGrandChildren store items).2) :
    q ∈ items.map NavItem.path := by
  rw [retrieveGrandChildren_calls] at h
  simp only [List.mem_map, List.mem_filter] at h
  obtain ⟨it, ⟨hmem, _⟩, heq⟩ := h
  simp only [StoreCall.listCall.injEq] at heq
  exact List.mem_map.mpr ⟨it, hmem, heq⟩

/-- Resolving the new parent in the background never changes the current
path. -/
theorem resolveParentTail_currentPath (store : DirectoryStore) (s : NavState) :
    (resolveParentTail store s).1.currentPath = s.currentPath := by
  by_cases he : store.existsPath (posixDirname s.currentPath)
  · cases hl : store.listDirectory (posixDirname s.currentPath) with
    | none => simp [resolveParentTail, he, hl]
    | some l => simp [resolveParentTail, he, hl]
  · simp [resolveParentTail, he]

/-- Resolving the new parent in the background never changes the current
entries. -/
theorem resolveParentTail_currentItems (store : DirectoryStore) (s : NavState) :
    (resolveParentTail store s).1.currentDirectoryItems = s.currentDirectoryItems := by
  by_cases he : store.existsPath (posixDirname s.currentPath)
  · cases hl : store.listDirectory (posixDirname s.currentPath) with
    | none => simp [resolveParentTail, he, hl]
    | some l => simp [resolveParentTail, he, hl]
  · simp [resolveParentTail, he]

/-- When the grandparent candidate does not exist, resolving the new
parent performs only the existence check. -/
theorem resolveParentTail_calls_of_not_exists (store : DirectoryStore) (s : NavState)
    (h : store.existsPath (posixDirname s.currentPath) = false) :
    (resolveParentTail store s).2 = [StoreCall.existsCall (posixDirname s.currentPath)] := by
  simp [resolveParentTail, h]

/-- Claim C10: if toChild is called while currentDirectoryItems is still
undefined, it returns successfully without raising an error, without
modifying any navigator field and without any Directory Store call. -/
theorem c10_toChild_noop_when_unloaded (store : DirectoryStore) (s : NavState)
    (folderPath : String) (h : s.currentDirectoryItems = none) :
    toChild store s folderPath = { state := s, err := none, calls := [] } := by
  simp [toChild, h]

def storeC10 : DirectoryStore :=
  { listDirectory := fun _ => none, existsPath := fun _ => false }

def stateC10 : NavState :=
  { currentPath := "/w", currentDirectoryItems := none,
    parentDirectoryPath := none, parentDirectoryItems := none }

/-- Witness for C10 at a concrete unloaded navigator state. -/
theorem c10_witness :
    toChild storeC10 stateC10 "/w/x" = { state := stateC10, err := none, calls := [] } :=
  c10_toChild_noop_when_unloaded storeC10 stateC10 "/w/x" rfl

/-- Claim C9: a failed background grandchild listing during re-priming is
swallowed: the rejection status of toChild and toParent does not depend on
the Directory Store at all, and re-priming never changes the underlying
items of the listing it re-primes, so no grandchild failure can surface to
the caller or corrupt the parent listing. -/
theorem c9_grandchild_failure_swallowed (st1 st2 : DirectoryStore) (s : NavState)
    (c : String) (items : List NavItem) :
    (toChild st1 s c).err = (toChild st2 s c).err ∧
    (toParent st1 s).err = (toParent st2 s).err ∧
    ((retrieveGrandChildren st1 items).1).map NavItem.item = items.map NavItem.item := by
  refine ⟨?_, ?_, retrieveGrandChildren_items st1 items⟩
  · cases h1 : s.currentDirectoryItems with
    | none => simp [toChild, h1]
    | some its =>
      cases h2 : its.find? (fun it => it.path == c) with
      | none => simp [toChild, h1, h2]
      | some child =>
        cases h3 : child.childItems with
        | none => simp [toChild, h1, h2, h3]
        | some gcs => simp [toChild, h1, h2, h3]
  · cases h1 : s.parentDirectoryPath with
    | none => simp [toParent, h1]
    | some p =>
      cases h2 : s.parentDirectoryItems with
      | none => simp [toParent, h1, h2]
      | some its => simp [toParent, h1, h2]

/-- Claim C3 (evaluation of the divergence): three sequential navigations
to different directories, each of which re-watches the new path the way
DirectoryList.componentDidUpdate does, leave three live watches and zero
cancel invocations, not the single live subscription with two cancels the
claim requires. -/
theorem c3_watch_leak_eval :
    liveWatchCount (navigationRewatch "/c"
      (navigationRewatch "/b" (navigationRewatch "/a" emptyWatcherState))) = 3 ∧
    (navigationRewatch "/c"
      (navigationRewatch "/b" (navigationRewatch "/a" emptyWatcherState))).cancels = 0 ∧
    ¬ (liveWatchCount (navigationRewatch "/c"
        (navigationRewatch "/b" (navigationRewatch "/a" emptyWatcherState))) = 1 ∧
      (navigationRewatch "/c"
        (navigationRewatch "/b" (navigationRewatch "/a" emptyWatcherState))).cancels = 2) := by
  decide

/-- Claim C4 (amended): paste invoked when the clipboard has no action set
makes no Directory Store call and returns silently without any error. -/
theorem c4_amended_paste_empty_silent (copyOk : String → String → Bool)
    (delOk : String → Bool) (store : DirectoryStore) (model : DirectoryListModel)
    (curPath : String) (h : model.clipboardAction = none) :
    pasteFromClipboard copyOk delOk store model curPath = ([], none) := by
  simp [pasteFromClipboard, h]

def storeC4 : DirectoryStore :=
  { listDirectory := fun _ => some [], existsPath := fun _ => true }

def modelC4 : DirectoryListModel :=
  { clipboardAction := none, clipboardItems := none }

/-- Claim C4 counterexample: with an empty clipboard, paste returns with
no Directory Store call and with no error at all, so it does not fail with
ClipboardError::Empty as the claim states. -/
theorem c4_counterexample :
    pasteFromClipboard (fun _ _ => true) (fun _ => true) storeC4 modelC4 "/dest" = ([], none) ∧
    ¬ ((pasteFromClipboard (fun _ _ => true) (fun _ => true) storeC4 modelC4 "/dest").2.isSome = true) := by
  refine ⟨rfl, ?_⟩
  decide

/-- Witness for the amended C4 at a concrete empty clipboard. -/
theorem c4_amended_witness :
    pasteFromClipboard (fun _ _ => false) (fun _ => false) storeC4 modelC4 "/w" = ([], none) :=
  c4_amended_paste_empty_silent (fun _ _ => false) (fun _ => false) storeC4 modelC4 "/w" rfl

/-- Batch deletion issues exactly one store-level deletion per item, in
order, with no compensating calls. -/
theorem deleteItems_calls (delOk : String → Bool) (items : List DirectoryItem) :
    (deleteItems delOk items).1 = items.map (fun i => StoreCall.deleteCall i.path) := by
  induction items with
  | nil => rfl
  | cons i rest ih =>
    have h1 : (deleteItems delOk (i :: rest)).1
        = StoreCall.deleteCall i.path :: (deleteItems delOk rest).1 := by
      simp [deleteItems, deleteItem]
    rw [h1, ih, List.map_cons]

/-- The rejection reported by batch deletion is exactly the error of the
first item whose store-level deletion failed. -/
theorem deleteItems_err (delOk : String → Bool) (items : List DirectoryItem) :
    (deleteItems delOk items).2
      = (items.find? (fun i => ! delOk i.path)).map
          (fun i =>
            { message := if parseItemType i = ItemType.folder then "Cannot remove folder" else "Cannot remove file",
              itemPath := i.path, secondPath := none }) := by
  induction items with
  | nil => rfl
  | cons i rest ih =>
    by_cases hd : delOk i.path = true
    · have h1 : (deleteItems delOk (i :: rest)).2 = (deleteItems delOk rest).2 := by
        simp [deleteItems, deleteItem, promiseAllErr, hd]
      rw [h1, ih, List.find?_cons_of_neg]
      simp [hd]
    · have hd2 : delOk i.path = false := by
        cases hv : delOk i.path with
        | true => exact absurd hv hd
        | false => rfl
      have h1 : (deleteItems delOk (i :: rest)).2
          = some
            { message := if parseItemType i = ItemType.folder then "Cannot remove folder" else "Cannot remove file",
              itemPath := i.path, secondPath := none } := by
        simp [deleteItems, deleteItem, promiseAllErr, hd2]
      rw [h1, List.find?_cons_of_pos _ (by simp [hd2])]
      simp

/-- Claim C7 (amended): batch deletion attempts the store-level deletion
of every item regardless of individual failures (one deletion call per
item, no rollback calls), keeps the deletions that succeeded, and reports
as the single error the error of the first failed item — a DirectoryError
naming one path — rather than an aggregate describing every failure. -/
theorem c7_amended_deleteItems (delOk : String → Bool) (items : List DirectoryItem) :
    (deleteItems delOk items).1 = items.map (fun i => StoreCall.deleteCall i.path) ∧
    (deleteItems delOk items).2
      = (items.find? (fun i => ! delOk i.path)).map
          (fun i =>
            { message := if parseItemType i = ItemType.folder then "Cannot remove folder" else "Cannot remove file",
              itemPath := i.path, secondPath := none }) :=
  ⟨deleteItems_calls delOk items, deleteItems_err delOk items⟩

def itemsC7 : List DirectoryItem :=
  [{ name := "1", path := "/t/1", isDirectory := false, isHidden := false },
   { name := "2", path := "/t/2", isDirectory := false, isHidden := false },
   { name := "3", path := "/t/3", isDirectory := false, isHidden := false }]

def delOkC7 : String → Bool := fun p => p == "/t/1"

/-- Claim C7 counterexample: when items 2 and 3 both fail, the single
reported error references item 2 only, so the reported error does not
describe every failed item as the claim states. -/
theorem c7_counterexample :
    (deleteItems delOkC7 itemsC7).2.map DirectoryError.itemPath = some "/t/2" ∧
    ¬ (∀ i ∈ itemsC7, delOkC7 i.path = false →
        (deleteItems delOkC7 itemsC7).2.map DirectoryError.itemPath = some i.path) := by
  decide

/-- Claim C8: moving an item is implemented as copy-then-delete — when the
copy succeeds the call log is exactly the copy followed by the source
deletion — and when the copy step fails an error is surfaced to the caller
and the source item is not deleted (no delete call is issued at all). -/
theorem c8_move_copy_then_delete (copyOk : String → String → Bool) (delOk : String → Bool)
    (itemPath destDir : String) (itemType : ItemType) :
    (copyOk itemPath (pathJoin destDir (posixBasename itemPath)) = true →
      (moveItem copyOk delOk itemPath destDir itemType).1
        = [StoreCall.copyCall itemPath (pathJoin destDir (posixBasename itemPath)),
           StoreCall.deleteCall itemPath]) ∧
    (copyOk itemPath (pathJoin destDir (posixBasename itemPath)) = false →
      ((moveItem copyOk delOk itemPath destDir itemType).2).isSome = true ∧
      (moveItem copyOk delOk itemPath destDir itemType).1
        = [StoreCall.copyCall itemPath (pathJoin destDir (posixBasename itemPath))]) := by
  constructor
  · intro h
    simp [moveItem, copyItem, deleteItem, h]
  · intro h
    simp [moveItem, copyItem, deleteItem, h]

/-- Witness for C8: a concrete successful move performs copy then delete,
and a concrete move whose copy fails surfaces an error with no delete. -/
theorem c8_witness :
    (moveItem (fun _ _ => true) (fun _ => true) "/s/a.txt" "/d" ItemType.file).1
      = [StoreCall.copyCall "/s/a.txt" (pathJoin "/d" (posixBasename "/s/a.txt")),
         StoreCall.deleteCall "/s/a.txt"] ∧
    (((moveItem (fun _ _ => false) (fun _ => true) "/s/a.txt" "/d" ItemType.file).2).isSome = true ∧
      (moveItem (fun _ _ => false) (fun _ => true) "/s/a.txt" "/d" ItemType.file).1
        = [StoreCall.copyCall "/s/a.txt" (pathJoin "/d" (posixBasename "/s/a.txt"))]) :=
  ⟨(c8_move_copy_then_delete (fun _ _ => true) (fun _ => true) "/s/a.txt" "/d" ItemType.file).1 rfl,
   (c8_move_copy_then_delete (fun _ _ => false) (fun _ => true) "/s/a.txt" "/d" ItemType.file).2 rfl⟩

@[simp] theorem item_comp_toNav : NavItem.item ∘ toNav = id := rfl

/-- Fresh navigator items carry the listed directory items unchanged. -/
theorem map_item_toNav (l : List DirectoryItem) : (l.map toNav).map NavItem.item = l := by
  simp [List.map_map]

/-- The shape of a successful toChild: the found entry's handle contents
become the current entries (re-primed), the previous current path and
entries become the tracked parent, and the only store calls are the
re-priming listings. -/
theorem toChild_success (store : DirectoryStore) (s : NavState) (c : String)
    (items : List NavItem) (childItem : NavItem) (gcs : List NavItem)
    (h1 : s.currentDirectoryItems = some items)
    (h2 : items.find? (fun it => it.path == c) = some childItem)
    (h3 : childItem.childItems = some gcs) :
    toChild store s c =
      { state :=
          { currentPath := childItem.path,
            currentDirectoryItems := some (retrieveGrandChildren store gcs).1,
            parentDirectoryPath := some s.currentPath,
            parentDirectoryItems := some items },
        err := none, calls := (retrieveGrandChildren store gcs).2 } := by
  simp [toChild, h1, h2, h3]

/-- The shape of a successful toParent: the tracked parent entries are
promoted (re-primed) with the tracked parent path, after which the new
parent is resolved in the background. -/
theorem toParent_success (store : DirectoryStore) (s : NavState) (p : String)
    (its : List NavItem)
    (h1 : s.parentDirectoryPath = some p) (h2 : s.parentDirectoryItems = some its) :
    toParent store s =
      { state := (resolveParentTail store
          { currentPath := p,
            currentDirectoryItems := some (retrieveGrandChildren store its).1,
            parentDirectoryPath := some p,
            parentDirectoryItems := some (retrieveGrandChildren store its).1 }).1,
        err := none,
        calls := (retrieveGrandChildren store its).2 ++ (resolveParentTail store
          { currentPath := p,
            currentDirectoryItems := some (retrieveGrandChildren store its).1,
            parentDirectoryPath := some p,
            parentDirectoryItems := some (retrieveGrandChildren store its).1 }).2 } := by
  simp [toParent, h1, h2]

/-- Claim C1 (amended): toDirectory called with the current path, when
that path is neither the tracked parent path nor among the current
entries' paths, is not a no-op: it issues a Directory Store listing of
the current path as its first call, keeps currentPath, and replaces
currentEntries with the fresh listing. -/
theorem c1_amended_toDirectory_relists (store : DirectoryStore) (s : NavState)
    (l : List DirectoryItem)
    (h1 : ¬ s.parentDirectoryPath = some s.currentPath)
    (h2 : ∀ items, s.currentDirectoryItems = some items →
        items.find? (fun it => it.path == s.currentPath) = none)
    (h3 : store.listDirectory s.currentPath = some l) :
    ((toDirectory store s s.currentPath).calls).head? = some (StoreCall.listCall s.currentPath) ∧
    (toDirectory store s s.currentPath).state.currentPath = s.currentPath ∧
    Option.map (List.map NavItem.item) (toDirectory store s s.currentPath).state.currentDirectoryItems
      = some l := by
  have hbind : Option.bind s.currentDirectoryItems
      (fun items => items.find? (fun it => it.path == s.currentPath)) = none := by
    cases hc : s.currentDirectoryItems with
    | none => rfl
    | some items => simpa using h2 items hc
  refine ⟨?_, ?_, ?_⟩ <;> simp only [toDirectory, if_neg h1, hbind, h3]
  · rfl
  · exact resolveParentTail_currentPath store _
  · rw [resolveParentTail_currentItems]
    simp [retrieveGrandChildren_items, map_item_toNav]

def storeC1 : DirectoryStore :=
  { listDirectory := fun p =>
      if p = "/a" then some [{ name := "x", path := "/a/x", isDirectory := false, isHidden := false }]
      else none,
    existsPath := fun _ => false }

def stateC1 : NavState :=
  { currentPath := "/a",
    currentDirectoryItems :=
      some [NavItem.mk { name := "b", path := "/a/b", isDirectory := true, isHidden := false } none],
    parentDirectoryPath := some "/",
    parentDirectoryItems := some [] }

/-- Claim C1 counterexample: at a navigator state with current path /a,
toDirectory with /a itself issues a Directory Store listing of /a and
replaces the current entries with the fresh listing, so it is neither
free of I/O nor an identical-cursor no-op. -/
theorem c1_counterexample :
    StoreCall.listCall "/a" ∈ (toDirectory storeC1 stateC1 "/a").calls ∧
    Option.map (List.map NavItem.item) (toDirectory storeC1 stateC1 "/a").state.currentDirectoryItems
      ≠ Option.map (List.map NavItem.item) stateC1.currentDirectoryItems := by
  decide

def storeC1w : DirectoryStore :=
  { listDirectory := fun p => if p = "/n" then some [] else none,
    existsPath := fun _ => false }

def stateC1w : NavState :=
  { currentPath := "/n", currentDirectoryItems := none,
    parentDirectoryPath := none, parentDirectoryItems := none }

/-- Witness for the amended C1 at a concrete state. -/
theorem c1_amended_witness :
    ((toDirectory storeC1w stateC1w "/n").calls).head? = some (StoreCall.listCall "/n") ∧
    (toDirectory storeC1w stateC1w "/n").state.currentPath = "/n" ∧
    Option.map (List.map NavItem.item) (toDirectory storeC1w stateC1w "/n").state.currentDirectoryItems
      = some [] :=
  c1_amended_toDirectory_relists storeC1w stateC1w []
    (by decide) (fun items h => Option.noConfusion h) rfl

/-- Claim C2 (amended): for toChild on an entry of the current listing —
when the entry's child-list handle exists (resolved, or pending, in which
case awaiting it yields its eventual list) the handle's list becomes the
new currentEntries with no additional Directory Store list call for the
child path; when no handle has been created, toChild rejects with the
not-begun-retrieval LoggedError and issues no store call, instead of
falling back to a direct listing. -/
theorem c2_amended_toChild (store : DirectoryStore) (s : NavState) (c : String)
    (items : List NavItem) (childItem : NavItem)
    (h1 : s.currentDirectoryItems = some items)
    (h2 : items.find? (fun it => it.path == c) = some childItem) :
    (∀ gcs, childItem.childItems = some gcs →
      (toChild store s c).err = none ∧
      Option.map (List.map NavItem.item) (toChild store s c).state.currentDirectoryItems
        = some (gcs.map NavItem.item) ∧
      ((∀ g ∈ gcs, ¬ g.path = c) → StoreCall.listCall c ∉ (toChild store s c).calls)) ∧
    (childItem.childItems = none →
      (toChild store s c).err = some NavErr.notRetrieved ∧ (toChild store s c).calls = []) := by
  constructor
  · intro gcs h3
    rw [toChild_success store s c items childItem gcs h1 h2 h3]
    refine ⟨rfl, ?_, ?_⟩
    · simp [retrieveGrandChildren_items]
    · intro hne hmem
      have hp := listCall_mem_retrieveGrandChildren store gcs c hmem
      obtain ⟨g, hg, hgp⟩ := List.mem_map.mp hp
      exact hne g hg hgp
  · intro h3
    simp [toChild, h1, h2, h3]

def storeC2w : DirectoryStore :=
  { listDirectory := fun _ => some [], existsPath := fun _ => true }

def stateC2w : NavState :=
  { currentPath := "/p",
    currentDirectoryItems :=
      some [NavItem.mk { name := "d", path := "/p/d", isDirectory := true, isHidden := false } (some []),
            NavItem.mk { name := "e", path := "/p/e", isDirectory := true, isHidden := false } none],
    parentDirectoryPath := some "/",
    parentDirectoryItems := some [] }

/-- Witness for the amended C2: a concrete entry with a resolved handle is
promoted without a list call for it, and a concrete entry without a handle
makes toChild reject with no store call. -/
theorem c2_amended_witness :
    ((toChild storeC2w stateC2w "/p/d").err = none ∧
      Option.map (List.map NavItem.item) (toChild storeC2w stateC2w "/p/d").state.currentDirectoryItems
        = some [] ∧
      StoreCall.listCall "/p/d" ∉ (toChild storeC2w stateC2w "/p/d").calls) ∧
    ((toChild storeC2w stateC2w "/p/e").err = some NavErr.notRetrieved ∧
      (toChild storeC2w stateC2w "/p/e").calls = []) := by
  refine ⟨?_, ?_⟩
  · have h := (c2_amended_toChild storeC2w stateC2w "/p/d" _ _ rfl rfl).1 [] rfl
    exact ⟨h.1, h.2.1, h.2.2 (fun g hg => absurd hg (List.not_mem_nil g))⟩
  · exact (c2_amended_toChild storeC2w stateC2w "/p/e" _ _ rfl rfl).2 rfl

def storeC2c : DirectoryStore :=
  { listDirectory := fun p => if p = "/p/d" then some [] else none,
    existsPath := fun _ => true }

def stateC2c : NavState :=
  { currentPath := "/p",
    currentDirectoryItems :=
      some [NavItem.mk { name := "d", path := "/p/d", isDirectory := true, isHidden := false } none],
    parentDirectoryPath := some "/",
    parentDirectoryItems := some [] }

/-- Claim C2 counterexample: the child entry has no child-list handle and
the Directory Store could list the child path directly, yet toChild
rejects with the not-begun-retrieval error and issues no store call at
all — it does not fall back to a direct listing. -/
theorem c2_counterexample :
    storeC2c.listDirectory "/p/d" = some [] ∧
    (toChild storeC2c stateC2c "/p/d").err = some NavErr.notRetrieved ∧
    (toChild storeC2c stateC2c "/p/d").calls = [] := by
  exact ⟨rfl, rfl, rfl⟩

/-- Claim C6 (amended): toParent rejects with the no-parent error exactly
when the tracked parent path is null (a set parent path with unresolved
parent entries instead raises a TypeError); otherwise the tracked parent
entries are promoted to currentEntries — for every store the promoted
entries carry exactly the tracked items, so no I/O determines the
promotion — while the operation's background re-priming may issue further
list calls, typically including one for the promoted path itself as a
directory entry of the grandparent listing. -/
theorem c6_amended_toParent (store : DirectoryStore) (s : NavState) (p : String)
    (its : List NavItem) :
    ((toParent store s).err = some NavErr.noParent ↔ s.parentDirectoryPath = none) ∧
    (s.parentDirectoryPath = some p → s.parentDirectoryItems = some its →
      (toParent store s).err = none ∧
      (toParent store s).state.currentPath = p ∧
      Option.map (List.map NavItem.item) (toParent store s).state.currentDirectoryItems
        = some (its.map NavItem.item)) := by
  constructor
  · cases h1 : s.parentDirectoryPath with
    | none => simp [toParent, h1]
    | some q =>
      cases h2 : s.parentDirectoryItems with
      | none => simp [toParent, h1, h2]
      | some its2 => simp [toParent, h1, h2]
  · intro h1 h2
    rw [toParent_success store s p its h1 h2]
    refine ⟨rfl, ?_, ?_⟩
    · rw [resolveParentTail_currentPath]
    · rw [resolveParentTail_currentItems]
      simp [retrieveGrandChildren_items]

def storeC6 : DirectoryStore :=
  { listDirectory := fun p =>
      if p = "/" then some [{ name := "home", path := "/home", isDirectory := true, isHidden := false }]
      else some [],
    existsPath := fun p => p == "/" }

def stateC6 : NavState :=
  { currentPath := "/home/user",
    currentDirectoryItems := some [],
    parentDirectoryPath := some "/home",
    parentDirectoryItems := some [] }

/-- Claim C6 counterexample: promoting the tracked parent /home succeeds,
yet the operation's call log contains a Directory Store listing of /home
itself (issued while re-priming the grandparent listing), so toParent
does not run without a list call for the promoted path. -/
theorem c6_counterexample :
    (toParent storeC6 stateC6).err = none ∧
    (toParent storeC6 stateC6).state.currentPath = "/home" ∧
    StoreCall.listCall "/home" ∈ (toParent storeC6 stateC6).calls := by
  decide

def storeC6w : DirectoryStore :=
  { listDirectory := fun _ => some [], existsPath := fun _ => false }

def stateC6w : NavState :=
  { currentPath := "/h/u",
    currentDirectoryItems := some [],
    parentDirectoryPath := some "/h",
    parentDirectoryItems :=
      some [NavItem.mk { name := "u", path := "/h/u", isDirectory := true, isHidden := false } none] }

/-- Witness for the amended C6 at a concrete tracked parent. -/
theorem c6_amended_witness :
    ((toParent storeC6w stateC6w).err = some NavErr.noParent ↔ stateC6w.parentDirectoryPath = none) ∧
    ((toParent storeC6w stateC6w).err = none ∧
      (toParent storeC6w stateC6w).state.currentPath = "/h" ∧
      Option.map (List.map NavItem.item) (toParent storeC6w stateC6w).state.currentDirectoryItems
        = some [{ name := "u", path := "/h/u", isDirectory := true, isHidden := false }]) :=
  ⟨(c6_amended_toParent storeC6w stateC6w "/h"
      [NavItem.mk { name := "u", path := "/h/u", isDirectory := true, isHidden := false } none]).1,
   (c6_amended_toParent storeC6w stateC6w "/h"
      [NavItem.mk { name := "u", path := "/h/u", isDirectory := true, isHidden := false } none]).2 rfl rfl⟩

/-- Claim C5 (amended): toChild into a directory entry followed by
toParent restores a cursor whose currentEntries carry exactly the
pre-toChild items (child-list handles refreshed by re-priming), and no
listing of the original directory is issued by toChild or by toParent's
promotion; a background listing of the original path does occur whenever
the original path's parent exists and lists it, so freedom from such a
call additionally requires the grandparent existence check to fail and no
entry or prefetched grandchild to carry the original path. -/
theorem c5_amended_roundTrip (store : DirectoryStore) (s : NavState) (c : String)
    (items : List NavItem) (childItem : NavItem) (gcs : List NavItem)
    (h1 : s.currentDirectoryItems = some items)
    (h2 : items.find? (fun it => it.path == c) = some childItem)
    (h3 : childItem.childItems = some gcs)
    (h4 : store.existsPath (posixDirname s.currentPath) = false)
    (h5 : ∀ g ∈ gcs, ¬ g.path = s.currentPath)
    (h6 : ∀ it ∈ items, ¬ it.path = s.currentPath) :
    (toChild store s c).err = none ∧
    (toParent store (toChild store s c).state).err = none ∧
    (toParent store (toChild store s c).state).state.currentPath = s.currentPath ∧
    Option.map (List.map NavItem.item)
        (toParent store (toChild store s c).state).state.currentDirectoryItems
      = Option.map (List.map NavItem.item) s.currentDirectoryItems ∧
    StoreCall.listCall s.currentPath ∉
      (toChild store s c).calls ++ (toParent store (toChild store s c).state).calls := by
  rw [toChild_success store s c items childItem gcs h1 h2 h3]
  rw [toParent_success store _ s.currentPath items rfl rfl]
  refine ⟨rfl, rfl, ?_, ?_, ?_⟩
  · rw [resolveParentTail_currentPath]
  · rw [resolveParentTail_currentItems]
    simp [retrieveGrandChildren_items, h1]
  · intro hmem
    rw [List.mem_append] at hmem
    rcases hmem with hmem | hmem
    · have hp := listCall_mem_retrieveGrandChildren store gcs s.currentPath hmem
      obtain ⟨g, hg, hgp⟩ := List.mem_map.mp hp
      exact h5 g hg hgp
    · rw [List.mem_append] at hmem
      rcases hmem with hmem | hmem
      · have hp := listCall_mem_retrieveGrandChildren store items s.currentPath hmem
        obtain ⟨g, hg, hgp⟩ := List.mem_map.mp hp
        exact h6 g hg hgp
      · rw [resolveParentTail_calls_of_not_exists store
              { currentPath := s.currentPath,
                currentDirectoryItems := some (retrieveGrandChildren store items).1,
                parentDirectoryPath := some s.currentPath,
                parentDirectoryItems := some (retrieveGrandChildren store items).1 } h4] at hmem
        simp at hmem

def storeC5w : DirectoryStore :=
  { listDirectory := fun _ => some [], existsPath := fun _ => false }

def stateC5w : NavState :=
  { currentPath := "/a",
    currentDirectoryItems :=
      some [NavItem.mk { name := "b", path := "/a/b", isDirectory := true, isHidden := false } (some []),
            NavItem.mk { name := "c", path := "/a/c", isDirectory := false, isHidden := false } none],
    parentDirectoryPath := some "/",
    parentDirectoryItems := some [] }

/-- Witness for the amended C5 at a concrete three-field listing. -/
theorem c5_amended_witness :
    (toChild storeC5w stateC5w "/a/b").err = none ∧
    (toParent storeC5w (toChild storeC5w stateC5w "/a/b").state).err = none ∧
    (toParent storeC5w (toChild storeC5w stateC5w "/a/b").state).state.currentPath = "/a" ∧
    Option.map (List.map NavItem.item)
        (toParent storeC5w (toChild storeC5w stateC5w "/a/b").state).state.currentDirectoryItems
      = Option.map (List.map NavItem.item) stateC5w.currentDirectoryItems ∧
    StoreCall.listCall "/a" ∉
      (toChild storeC5w stateC5w "/a/b").calls
        ++ (toParent storeC5w (toChild storeC5w stateC5w "/a/b").state).calls :=
  c5_amended_roundTrip storeC5w stateC5w "/a/b" _ _ []
    rfl rfl rfl rfl
    (fun g hg => absurd hg (List.not_mem_nil g))
    (by decide)

def storeC5c : DirectoryStore :=
  { listDirectory := fun p =>
      if p = "/" then some [{ name := "a", path := "/a", isDirectory := true, isHidden := false }]
      else some [],
    existsPath := fun p => p == "/" }

def stateC5c : NavState :=
  { currentPath := "/a",
    currentDirectoryItems :=
      some [NavItem.mk { name := "b", path := "/a/b", isDirectory := true, isHidden := false } (some []),
            NavItem.mk { name := "c", path := "/a/c", isDirectory := false, isHidden := false } none],
    parentDirectoryPath := some "/",
    parentDirectoryItems := some [] }

/-- Claim C5 counterexample: a toChild into /a/b followed by toParent
succeeds, yet the toParent call log contains a new Directory Store
listing of the original directory /a (issued while re-priming the
grandparent listing), contradicting the claim's no-new-listing part. -/
theorem c5_counterexample :
    (toChild storeC5c stateC5c "/a/b").err = none ∧
    (toParent storeC5c (toChild storeC5c stateC5c "/a/b").state).err = none ∧
    StoreCall.listCall "/a" ∈ (toParent storeC5c (toChild storeC5c stateC5c "/a/b").state).calls := by
  decide

end Freeman
